import Mathlib

/-!
Verification of the ShipWatch vessel-emissions dashboard.

The repository contains two copies of the emissions estimator:
one in the Node server (`server/index.js`, here namespace `Server`)
and one in the frontend utilities (`src/utils/emissions.js` together with
`src/utils/vesselSpecs.js`, here namespace `Frontend`).  Numbers that are
IEEE doubles in JavaScript are modelled as exact rationals `ℚ`; the demo
movement step, which uses trigonometry, is modelled over `ℝ`.
-/

/-- An engine specification: rated power (kW) and design speed (knots). -/
structure VesselSpec where
  avgEngineMCR_kW : ℚ
  maxSpeedKnots : ℚ
  deriving DecidableEq, Repr

/-- The full emissions breakdown returned by `calculateEmissions`.
The frontend version additionally returns a record of human-readable
assumption strings (`assumptions`), pure presentation text built with
`toLocaleString`/`toFixed`; it is omitted here, no claim mentions it. -/
structure EmissionsResult where
  engineKW : ℚ
  loadFactor : ℚ
  fuelType : String
  sfcGPerKWh : ℚ
  emissionFactor : ℚ
  fuelBurnedTonnesPerDay : ℚ
  co2PerDayTonnes : ℚ
  emissionTier : String
  tierColor : String
  deriving DecidableEq, Repr

namespace Server

/-- `getVesselSpecs` from `server/index.js` (lines 111-122). -/
def getVesselSpecs (typeCode : ℤ) : VesselSpec :=
  if 70 ≤ typeCode ∧ typeCode ≤ 79 then
    if typeCode = 70 then ⟨8000, 14⟩ else ⟨25000, 22⟩
  else if 80 ≤ typeCode ∧ typeCode ≤ 89 then ⟨15000, 15⟩
  else if 60 ≤ typeCode ∧ typeCode ≤ 69 then ⟨30000, 22⟩
  else if 50 ≤ typeCode ∧ typeCode ≤ 59 then ⟨3000, 13⟩
  else if typeCode = 30 then ⟨1500, 12⟩
  else ⟨10000, 14⟩

/-- `calculateEmissions` from `server/index.js` (lines 69-109).
Takes the two vessel fields it reads (`shipTypeCode`, `speed`).
Tier thresholds: HIGH above 300 t/day, MODERATE above 100 t/day. -/
def calculateEmissions (shipTypeCode : ℤ) (speed : ℚ) : EmissionsResult :=
  let specs := getVesselSpecs shipTypeCode
  let engineKW := specs.avgEngineMCR_kW
  let speedRatio := min (speed / specs.maxSpeedKnots) 1
  let loadFactor := max (speedRatio ^ 3) 0.05
  let fuelType := "HFO"
  let sfcGPerKWh : ℚ := 195
  let emissionFactor : ℚ := 3.114
  let fuelBurnedGPerHour := engineKW * loadFactor * sfcGPerKWh
  let fuelBurnedKgPerDay := fuelBurnedGPerHour * 24 / 1000
  let fuelBurnedTonnesPerDay := fuelBurnedKgPerDay / 1000
  let co2PerDayTonnes := fuelBurnedTonnesPerDay * emissionFactor
  let tier : String × String :=
    if co2PerDayTonnes > 300 then ("HIGH", "#ff4d4d")
    else if co2PerDayTonnes > 100 then ("MODERATE", "#ff9500")
    else ("LOW", "#00c853")
  { engineKW := engineKW
    loadFactor := loadFactor
    fuelType := fuelType
    sfcGPerKWh := sfcGPerKWh
    emissionFactor := emissionFactor
    fuelBurnedTonnesPerDay := fuelBurnedTonnesPerDay
    co2PerDayTonnes := co2PerDayTonnes
    emissionTier := tier.1
    tierColor := tier.2 }

end Server

namespace Frontend

/-- `getVesselSpecs` from `src/utils/vesselSpecs.js` (lines 25-36);
compared to the server copy it has two extra branches,
military (35) and pleasure (36-37). -/
def getVesselSpecs (typeCode : ℤ) : VesselSpec :=
  if 70 ≤ typeCode ∧ typeCode ≤ 79 then
    if typeCode = 70 then ⟨8000, 14⟩ else ⟨25000, 22⟩
  else if 80 ≤ typeCode ∧ typeCode ≤ 89 then ⟨15000, 15⟩
  else if 60 ≤ typeCode ∧ typeCode ≤ 69 then ⟨30000, 22⟩
  else if 50 ≤ typeCode ∧ typeCode ≤ 59 then ⟨3000, 13⟩
  else if 36 ≤ typeCode ∧ typeCode ≤ 37 then ⟨500, 10⟩
  else if typeCode = 35 then ⟨20000, 28⟩
  else if typeCode = 30 then ⟨1500, 12⟩
  else ⟨10000, 14⟩

/-- `calculateEmissions` from `src/utils/emissions.js` (lines 17-76).
Tier thresholds: HIGH above 80 t/day, MODERATE above 10 t/day. -/
def calculateEmissions (shipTypeCode : ℤ) (speed : ℚ) : EmissionsResult :=
  let specs := getVesselSpecs shipTypeCode
  let engineKW := specs.avgEngineMCR_kW
  let speedRatio := min (speed / specs.maxSpeedKnots) 1
  let loadFactor := max (speedRatio ^ 3) 0.05
  let fuelType := "HFO"
  let sfcGPerKWh : ℚ := 195
  let emissionFactor : ℚ := 3.114
  let fuelBurnedGPerHour := engineKW * loadFactor * sfcGPerKWh
  let fuelBurnedKgPerDay := fuelBurnedGPerHour * 24 / 1000
  let fuelBurnedTonnesPerDay := fuelBurnedKgPerDay / 1000
  let co2PerDayTonnes := fuelBurnedTonnesPerDay * emissionFactor
  let tier : String × String :=
    if co2PerDayTonnes > 80 then ("HIGH", "#ff4d4d")
    else if co2PerDayTonnes > 10 then ("MODERATE", "#ff9500")
    else ("LOW", "#00c853")
  { engineKW := engineKW
    loadFactor := loadFactor
    fuelType := fuelType
    sfcGPerKWh := sfcGPerKWh
    emissionFactor := emissionFactor
    fuelBurnedTonnesPerDay := fuelBurnedTonnesPerDay
    co2PerDayTonnes := co2PerDayTonnes
    emissionTier := tier.1
    tierColor := tier.2 }

end Frontend

/-- The type-code-to-spec table exactly as the claim and spec state it:
70 → general cargo, 71-79 → container, 80-89 → tanker, 60-69 → passenger,
50-59 → service, 30 → fishing, everything else → default. -/
def claimedSpecTable (t : ℤ) : VesselSpec :=
  if t = 70 then ⟨8000, 14⟩
  else if 71 ≤ t ∧ t ≤ 79 then ⟨25000, 22⟩
  else if 80 ≤ t ∧ t ≤ 89 then ⟨15000, 15⟩
  else if 60 ≤ t ∧ t ≤ 69 then ⟨30000, 22⟩
  else if 50 ≤ t ∧ t ≤ 59 then ⟨3000, 13⟩
  else if t = 30 then ⟨1500, 12⟩
  else ⟨10000, 14⟩

/-- Every spec table entry has a strictly positive design speed. -/
theorem Server.maxSpeedKnots_pos (t : ℤ) :
    0 < (Server.getVesselSpecs t).maxSpeedKnots := by
  unfold Server.getVesselSpecs
  split_ifs <;> norm_num

/-- C1: `estimate(typeCode=70, speedKnots=14)` resolves the general cargo
spec (8000 kW, design speed 14 kn), gives speedRatio 1, loadFactor 1,
fuelBurnedTonnesPerDay = 8000*1*195*24/1e6 = 37.44,
co2TonnesPerDay = 37.44*3.114 = 116.58816 ≈ 116.6, and, with the 80/10
thresholds of `src/utils/emissions.js`, tier HIGH. -/
theorem scenario1_estimate_70_14 :
    min ((14 : ℚ) / (Frontend.getVesselSpecs 70).maxSpeedKnots) 1 = 1 ∧
    (Frontend.calculateEmissions 70 14).engineKW = 8000 ∧
    (Frontend.calculateEmissions 70 14).loadFactor = 1 ∧
    (Frontend.calculateEmissions 70 14).sfcGPerKWh = 195 ∧
    (Frontend.calculateEmissions 70 14).emissionFactor = 3.114 ∧
    (Frontend.calculateEmissions 70 14).fuelBurnedTonnesPerDay
      = 8000 * 1 * 195 * 24 / 1000000 ∧
    (Frontend.calculateEmissions 70 14).co2PerDayTonnes
      = 8000 * 1 * 195 * 24 / 1000000 * 3.114 ∧
    (Frontend.calculateEmissions 70 14).emissionTier = "HIGH" := by
  refine ⟨?_, ?_, ?_, ?_, ?_, ?_, ?_, ?_⟩ <;>
    norm_num [Frontend.calculateEmissions, Frontend.getVesselSpecs]

/-- C2: the two copies of the estimator disagree on the tier: at
`(typeCode, speedKnots) = (70, 14)` both compute the same
co2TonnesPerDay, yet the server copy (300/100 cutoffs) answers MODERATE
while the frontend copy (80/10 cutoffs) answers HIGH. -/
theorem tier_thresholds_inconsistent :
    (Server.calculateEmissions 70 14).co2PerDayTonnes
      = (Frontend.calculateEmissions 70 14).co2PerDayTonnes ∧
    (Server.calculateEmissions 70 14).emissionTier = "MODERATE" ∧
    (Frontend.calculateEmissions 70 14).emissionTier = "HIGH" ∧
    (Server.calculateEmissions 70 14).emissionTier
      ≠ (Frontend.calculateEmissions 70 14).emissionTier := by
  refine ⟨?_, ?_, ?_, ?_⟩ <;>
    norm_num [Server.calculateEmissions, Server.getVesselSpecs,
      Frontend.calculateEmissions, Frontend.getVesselSpecs]
  decide

/-- C3 counterexample: the claim says every type code outside the listed
ranges resolves to the default spec, but the frontend `getVesselSpecs`
maps 35 to a military spec (20000 kW, 28 kn), not to the default. -/
theorem getVesselSpecs_claim_counterexample :
    ¬ Frontend.getVesselSpecs 35 = claimedSpecTable 35 := by
  norm_num [Frontend.getVesselSpecs, claimedSpecTable]

/-- C3 (amended): the server `getVesselSpecs` realises the claimed table
exactly on every integer; the frontend copy agrees with it except that it
additionally maps 35 to a military spec and 36-37 to a pleasure spec. -/
theorem getVesselSpecs_characterization (t : ℤ) :
    Server.getVesselSpecs t = claimedSpecTable t ∧
    Frontend.getVesselSpecs t =
      (if t = 35 then ⟨20000, 28⟩
       else if 36 ≤ t ∧ t ≤ 37 then ⟨500, 10⟩
       else claimedSpecTable t) := by
  constructor <;>
  · simp only [Server.getVesselSpecs, Frontend.getVesselSpecs, claimedSpecTable]
    split_ifs <;> first | rfl | omega

set_option linter.unusedVariables false in
/-- C4: for speeds up to the design speed the load factor is the cube of
the speed ratio floored at 0.05, and above design speed it is exactly 1. -/
theorem loadFactor_cubic_formula (t : ℤ) (s : ℚ) (h0 : 0 ≤ s) :
    (s ≤ (Server.getVesselSpecs t).maxSpeedKnots →
       (Server.calculateEmissions t s).loadFactor
         = max ((s / (Server.getVesselSpecs t).maxSpeedKnots) ^ 3) 0.05) ∧
    ((Server.getVesselSpecs t).maxSpeedKnots < s →
       (Server.calculateEmissions t s).loadFactor = 1) := by
  have hd := Server.maxSpeedKnots_pos t
  have hload : (Server.calculateEmissions t s).loadFactor
      = max ((min (s / (Server.getVesselSpecs t).maxSpeedKnots) 1) ^ 3) 0.05 := rfl
  constructor
  · intro hs
    have hratio : s / (Server.getVesselSpecs t).maxSpeedKnots ≤ 1 :=
      (div_le_one hd).mpr hs
    rw [hload, min_eq_left hratio]
  · intro hs
    have hratio : 1 ≤ s / (Server.getVesselSpecs t).maxSpeedKnots :=
      (one_le_div hd).mpr (le_of_lt hs)
    rw [hload, min_eq_right hratio]
    norm_num

/-- C4 witness: the theorem instantiated at type code 70, speed 7 kn. -/
theorem loadFactor_cubic_formula_witness :
    ((7 : ℚ) ≤ (Server.getVesselSpecs 70).maxSpeedKnots →
       (Server.calculateEmissions 70 7).loadFactor
         = max (((7 : ℚ) / (Server.getVesselSpecs 70).maxSpeedKnots) ^ 3) 0.05) ∧
    ((Server.getVesselSpecs 70).maxSpeedKnots < 7 →
       (Server.calculateEmissions 70 7).loadFactor = 1) :=
  loadFactor_cubic_formula 70 7 (by norm_num)

/-- C5: for every integer type code and every rational speed, including
negative speeds, the load factor is clamped to [0.05, 1]. -/
theorem loadFactor_clamped (t : ℤ) (s : ℚ) :
    0.05 ≤ (Server.calculateEmissions t s).loadFactor ∧
    (Server.calculateEmissions t s).loadFactor ≤ 1 := by
  have hload : (Server.calculateEmissions t s).loadFactor
      = max ((min (s / (Server.getVesselSpecs t).maxSpeedKnots) 1) ^ 3) 0.05 := rfl
  constructor
  · rw [hload]; exact le_max_right _ _
  · rw [hload]
    apply max_le _ (by norm_num)
    have hr : min (s / (Server.getVesselSpecs t).maxSpeedKnots) 1 ≤ 1 :=
      min_le_right _ _
    rcases le_or_lt 0 (min (s / (Server.getVesselSpecs t).maxSpeedKnots) 1) with h | h
    · exact pow_le_one₀ h hr
    · nlinarith [pow_pos (neg_pos.mpr h) 3]

/-! ## The vessel registry and the AIS message handler (`server/index.js`) -/

/-- JavaScript `a || b` on an optional number: `undefined` and `0` are falsy. -/
def jsOrQ (a : Option ℚ) (b : ℚ) : ℚ :=
  match a with
  | some x => if x = 0 then b else x
  | none => b

/-- JavaScript `a || b` on an optional integer. -/
def jsOrInt (a : Option ℤ) (b : ℤ) : ℤ :=
  match a with
  | some x => if x = 0 then b else x
  | none => b

/-- JavaScript `a || null` on an optional integer (`0` becomes `null`). -/
def jsOrNullInt (a : Option ℤ) : Option ℤ :=
  match a with
  | some x => if x = 0 then none else some x
  | none => none

/-- JavaScript `a || b` on an optional string (the empty string is falsy). -/
def jsOrStr (a : Option String) (b : String) : String :=
  match a with
  | some s => if s = "" then b else s
  | none => b

/-- JavaScript `a || null` on an optional string. -/
def jsOrNullStr (a : Option String) : Option String :=
  match a with
  | some s => if s = "" then none else some s
  | none => none

/-- JavaScript truthiness of `vessel.shipTypeCode`
(`undefined` and `0` are falsy). -/
def truthyTypeCode : Option ℤ → Bool
  | some c => c != 0
  | none => false

/-- One vessel record of the server's `vessels` map.  Fields that the stub
`{ mmsi, port }` leaves unset are `Option`s.  The emission fields that
`Object.assign(vessel, emissions)` spreads into the record are grouped
into the single field `emissions`, always written together in the source. -/
structure Vessel where
  mmsi : ℕ
  port : String
  name : Option String := none
  shipTypeCode : Option ℤ := none
  imo : Option ℤ := none
  callsign : Option String := none
  latitude : Option ℚ := none
  longitude : Option ℚ := none
  speed : Option ℚ := none
  heading : Option ℚ := none
  course : Option ℚ := none
  lastUpdated : Option ℕ := none
  emissions : Option EmissionsResult := none
  deriving DecidableEq, Repr

/-- The stub `{ mmsi, port: 'New York' }` created on first observation. -/
def vesselStub (mmsi : ℕ) : Vessel :=
  { mmsi := mmsi, port := "New York" }

/-- The `vessels` JavaScript `Map`, as an insertion-ordered association
list of `(mmsi, record)` pairs. -/
abbrev Registry := List (ℕ × Vessel)

/-- `Map.get`: the value stored at a key, if any. -/
def Registry.get : Registry → ℕ → Option Vessel
  | [], _ => none
  | p :: r, k => if p.1 = k then some p.2 else Registry.get r k

/-- `Map.set`: replace the value at an existing key in place, otherwise
append at the end (JavaScript `Map` keeps insertion order). -/
def Registry.set : Registry → ℕ → Vessel → Registry
  | [], k, v => [(k, v)]
  | p :: r, k, v => if p.1 = k then (k, v) :: r else p :: Registry.set r k v

/-- `Map.size`. -/
def Registry.size (r : Registry) : ℕ := r.length

theorem Registry.get_set_self (r : Registry) (k : ℕ) (v : Vessel) :
    (r.set k v).get k = some v := by
  induction r with
  | nil => simp [Registry.set, Registry.get]
  | cons p r ih =>
    by_cases h : p.1 = k <;> simp [Registry.set, Registry.get, h, ih]

theorem Registry.get_set_ne (r : Registry) (k k' : ℕ) (v : Vessel)
    (h : k' ≠ k) : (r.set k v).get k' = r.get k' := by
  induction r with
  | nil => simp [Registry.set, Registry.get, Ne.symm h]
  | cons p r ih =>
    by_cases hp : p.1 = k
    · simp [Registry.set, Registry.get, hp, Ne.symm h, ih]
    · simp only [Registry.set, hp, if_false, Registry.get, ih]

/-- A `PositionReport` payload of the AIS feed. -/
structure PositionReport where
  Latitude : ℚ
  Longitude : ℚ
  Sog : Option ℚ
  TrueHeading : Option ℚ
  Cog : Option ℚ
  deriving DecidableEq, Repr

/-- A `ShipStaticData` payload of the AIS feed. -/
structure ShipStaticData where
  Name : Option String
  «Type» : Option ℤ
  ImoNumber : Option ℤ
  CallSign : Option String
  deriving DecidableEq, Repr

/-- The `Message` object: at most one of the two payload kinds. -/
structure MessageBody where
  PositionReport : Option PositionReport
  ShipStaticData : Option ShipStaticData
  deriving DecidableEq, Repr

/-- The `MetaData` object (only its `MMSI` field is read). -/
structure MetaData where
  MMSI : Option ℕ
  deriving DecidableEq, Repr

/-- An inbound feed message as destructured by `processAISMessage`. -/
structure AISMessage where
  MessageType : String
  Message : Option MessageBody
  MetaData : Option MetaData
  deriving DecidableEq, Repr

/-- The `PositionReport` branch of `processAISMessage` (lines 298-311):
overwrite the kinematic fields (with `|| 0` fallbacks for Sog, heading
and Cog), stamp `lastUpdated`, and recompute emissions only when
`shipTypeCode` is already truthy.  A record whose speed was never set
would propagate JavaScript `NaN` through the emission numbers; here the
missing speed is read as 0, no proved claim depends on those values. -/
def applyPositionReport (v : Vessel) (pos : PositionReport) (now : ℕ) : Vessel :=
  let newEmissions :=
    if truthyTypeCode v.shipTypeCode then
      some (Server.calculateEmissions (v.shipTypeCode.getD 0) (jsOrQ pos.Sog 0))
    else v.emissions
  { v with latitude := some pos.Latitude
           longitude := some pos.Longitude
           speed := some (jsOrQ pos.Sog 0)
           heading := some (jsOrQ pos.TrueHeading (jsOrQ pos.Cog 0))
           course := some (jsOrQ pos.Cog 0)
           lastUpdated := some now
           emissions := newEmissions }

/-- The `ShipStaticData` branch of `processAISMessage` (lines 313-322):
set the identity fields (type defaulting to 70, imo and callsign
defaulting to null) and recompute emissions unconditionally.
`lastUpdated` is not touched in this branch, exactly as in the source. -/
def applyStaticData (v : Vessel) (data : ShipStaticData) (mmsi : ℕ) : Vessel :=
  { v with name := some (jsOrStr data.Name ("Vessel " ++ toString mmsi))
           shipTypeCode := some (jsOrInt data.«Type» 70)
           imo := jsOrNullInt data.ImoNumber
           callsign := jsOrNullStr data.CallSign
           emissions := some (Server.calculateEmissions (jsOrInt data.«Type» 70)
             (v.speed.getD 0)) }

/-- `processAISMessage` from `server/index.js` (lines 288-325).
Messages with no `Message`, no `MetaData` or a falsy `MMSI` are dropped.
A `MessageType` whose payload is absent makes the JavaScript throw on a
field access before any assignment; the exception is caught by the feed
handler, so the registry is left unchanged, which is what the `none`
branches return here.  A message of an unrecognized type still executes
the final `vessels.set`, storing the looked-up (or stub) record. -/
def processAISMessage (vessels : Registry) (now : ℕ) (msg : AISMessage) :
    Registry :=
  match msg.Message, msg.MetaData with
  | some body, some meta =>
    match meta.MMSI with
    | some mmsi =>
      if mmsi = 0 then vessels
      else
        let vessel := (vessels.get mmsi).getD (vesselStub mmsi)
        if msg.MessageType = "PositionReport" then
          match body.PositionReport with
          | some pos => vessels.set mmsi (applyPositionReport vessel pos now)
          | none => vessels
        else if msg.MessageType = "ShipStaticData" then
          match body.ShipStaticData with
          | some data => vessels.set mmsi (applyStaticData vessel data mmsi)
          | none => vessels
        else vessels.set mmsi vessel
    | none => vessels
  | _, _ => vessels

/-- C6: a merge never clears a field the partial omits.  For an existing
record and any message identifying it, position reports leave the
identity fields untouched and static-data reports leave the kinematic
fields untouched (emissions, the recomputed derived field, excepted);
records of other vessels are untouched in every case. -/
theorem processAISMessage_frame (r : Registry) (now : ℕ) (msg : AISMessage)
    (mmsi : ℕ) (meta : MetaData) (v v' : Vessel)
    (hm : msg.MetaData = some meta) (hmm : meta.MMSI = some mmsi)
    (hv : r.get mmsi = some v)
    (hv' : (processAISMessage r now msg).get mmsi = some v') :
    (∀ k, k ≠ mmsi → (processAISMessage r now msg).get k = r.get k) ∧
    v'.mmsi = v.mmsi ∧ v'.port = v.port ∧
    (msg.MessageType = "PositionReport" →
      v'.name = v.name ∧ v'.shipTypeCode = v.shipTypeCode ∧
      v'.imo = v.imo ∧ v'.callsign = v.callsign) ∧
    (msg.MessageType = "ShipStaticData" →
      v'.latitude = v.latitude ∧ v'.longitude = v.longitude ∧
      v'.speed = v.speed ∧ v'.heading = v.heading ∧
      v'.course = v.course ∧ v'.lastUpdated = v.lastUpdated) := by
  obtain ⟨mt, mbody, mmeta⟩ := msg
  replace hm : mmeta = some meta := hm
  subst hm
  obtain ⟨mM⟩ := meta
  replace hmm : mM = some mmsi := hmm
  subst hmm
  cases mbody with
  | none =>
    replace hv' : r.get mmsi = some v' := hv'
    rw [hv] at hv'
    obtain rfl : v = v' := Option.some.inj hv'
    exact ⟨fun k _ => rfl, rfl, rfl, fun _ => ⟨rfl, rfl, rfl, rfl⟩,
      fun _ => ⟨rfl, rfl, rfl, rfl, rfl, rfl⟩⟩
  | some body =>
    by_cases hmz : mmsi = 0
    · have hr : processAISMessage r now ⟨mt, some body, some ⟨some mmsi⟩⟩ = r := by
        simp only [processAISMessage]
        rw [if_pos hmz]
      rw [hr] at hv'
      rw [hv] at hv'
      obtain rfl : v = v' := Option.some.inj hv'
      exact ⟨fun k _ => by rw [hr], rfl, rfl, fun _ => ⟨rfl, rfl, rfl, rfl⟩,
        fun _ => ⟨rfl, rfl, rfl, rfl, rfl, rfl⟩⟩
    · have hvv : (r.get mmsi).getD (vesselStub mmsi) = v := by rw [hv]; rfl
      by_cases hpt : mt = "PositionReport"
      · subst hpt
        cases hbp : body.PositionReport with
        | none =>
          have hr : processAISMessage r now
              ⟨"PositionReport", some body, some ⟨some mmsi⟩⟩ = r := by
            simp only [processAISMessage]
            rw [if_neg hmz, if_true, hbp]
          rw [hr] at hv'
          rw [hv] at hv'
          obtain rfl : v = v' := Option.some.inj hv'
          exact ⟨fun k _ => by rw [hr], rfl, rfl, fun _ => ⟨rfl, rfl, rfl, rfl⟩,
            fun _ => ⟨rfl, rfl, rfl, rfl, rfl, rfl⟩⟩
        | some pos =>
          have hr : processAISMessage r now
              ⟨"PositionReport", some body, some ⟨some mmsi⟩⟩
                = r.set mmsi (applyPositionReport v pos now) := by
            simp only [processAISMessage]
            rw [if_neg hmz, if_true, hbp, hvv]
          rw [hr] at hv'
          rw [Registry.get_set_self] at hv'
          obtain rfl : applyPositionReport v pos now = v' :=
            Option.some.inj hv'
          refine ⟨fun k hk => by rw [hr, Registry.get_set_ne r mmsi k _ hk],
            rfl, rfl, fun _ => ⟨rfl, rfl, rfl, rfl⟩, fun hss => ?_⟩
          exact absurd (show ("PositionReport" : String) = "ShipStaticData" from hss)
            (by decide)
      · by_cases hst : mt = "ShipStaticData"
        · subst hst
          cases hbs : body.ShipStaticData with
          | none =>
            have hr : processAISMessage r now
                ⟨"ShipStaticData", some body, some ⟨some mmsi⟩⟩ = r := by
              simp only [processAISMessage]
              rw [if_neg hmz, if_true, hbs, if_neg hpt]
            rw [hr] at hv'
            rw [hv] at hv'
            obtain rfl : v = v' := Option.some.inj hv'
            exact ⟨fun k _ => by rw [hr], rfl, rfl,
              fun _ => ⟨rfl, rfl, rfl, rfl⟩,
              fun _ => ⟨rfl, rfl, rfl, rfl, rfl, rfl⟩⟩
          | some data =>
            have hr : processAISMessage r now
                ⟨"ShipStaticData", some body, some ⟨some mmsi⟩⟩
                  = r.set mmsi (applyStaticData v data mmsi) := by
              simp only [processAISMessage]
              rw [if_neg hmz, if_true, hbs, hvv, if_neg hpt]
            rw [hr] at hv'
            rw [Registry.get_set_self] at hv'
            obtain rfl : applyStaticData v data mmsi = v' :=
              Option.some.inj hv'
            refine ⟨fun k hk => by rw [hr, Registry.get_set_ne r mmsi k _ hk],
              rfl, rfl,
              fun hps => absurd
                (show ("ShipStaticData" : String) = "PositionReport" from hps)
                (by decide),
              fun _ => ⟨rfl, rfl, rfl, rfl, rfl, rfl⟩⟩
        · have hr : processAISMessage r now
              ⟨mt, some body, some ⟨some mmsi⟩⟩ = r.set mmsi v := by
            simp only [processAISMessage]
            rw [if_neg hmz, if_neg hpt, if_neg hst, hvv]
          rw [hr] at hv'
          rw [Registry.get_set_self] at hv'
          obtain rfl : v = v' := Option.some.inj hv'
          exact ⟨fun k hk => by rw [hr, Registry.get_set_ne r mmsi k _ hk],
            rfl, rfl, fun _ => ⟨rfl, rfl, rfl, rfl⟩,
            fun _ => ⟨rfl, rfl, rfl, rfl, rfl, rfl⟩⟩

/-- Fixture: a fully populated vessel record keyed by MMSI 5. -/
def vFix : Vessel :=
  { mmsi := 5, port := "New York", name := some "Pacific Pioneer",
    shipTypeCode := some 70, latitude := some 40.6, longitude := some (-74),
    speed := some 10, heading := some 90, course := some 90 }

/-- Fixture: a position report whose TrueHeading is 0 and Cog is 90. -/
def posFix : PositionReport :=
  { Latitude := 40.7, Longitude := -74.1, Sog := some 12,
    TrueHeading := some 0, Cog := some 90 }

/-- Fixture: the feed message wrapping `posFix` for MMSI 5. -/
def msgFixPos : AISMessage :=
  { MessageType := "PositionReport"
    Message := some { PositionReport := some posFix, ShipStaticData := none }
    MetaData := some { MMSI := some 5 } }

/-- Fixture: a one-vessel registry. -/
def rFix : Registry := [(5, vFix)]

/-- C6 witness: the frame theorem applied to the fixture registry and
position report: the other key 9 is untouched and the identity fields of
the merged record are unchanged. -/
theorem processAISMessage_frame_witness :
    (processAISMessage rFix 7 msgFixPos).get 9 = rFix.get 9 ∧
    (applyPositionReport vFix posFix 7).name = vFix.name ∧
    (applyPositionReport vFix posFix 7).shipTypeCode = vFix.shipTypeCode ∧
    (applyPositionReport vFix posFix 7).imo = vFix.imo ∧
    (applyPositionReport vFix posFix 7).callsign = vFix.callsign := by
  have h := processAISMessage_frame rFix 7 msgFixPos 5 ⟨some 5⟩ vFix
    (applyPositionReport vFix posFix 7) rfl rfl rfl rfl
  exact ⟨h.1 9 (by decide), h.2.2.2.1 rfl⟩

/-- C7: a feed message with no `Message`, no `MetaData`, or no `MMSI`
leaves the registry exactly as it was. -/
theorem processAISMessage_drops_unidentified (r : Registry) (now : ℕ)
    (msg : AISMessage)
    (h : msg.Message = none ∨ msg.MetaData = none ∨
      ∀ meta, msg.MetaData = some meta → meta.MMSI = none) :
    processAISMessage r now msg = r := by
  obtain ⟨mt, mbody, mmeta⟩ := msg
  rcases h with h | h | h
  · replace h : mbody = none := h
    subst h
    cases mmeta <;> rfl
  · replace h : mmeta = none := h
    subst h
    cases mbody <;> rfl
  · cases mmeta with
    | none => cases mbody <;> rfl
    | some meta =>
      have hM : meta.MMSI = none := h meta rfl
      obtain ⟨mM⟩ := meta
      replace hM : mM = none := hM
      subst hM
      cases mbody <;> rfl

/-- C7 witness: a message with `Message` absent leaves the registry
unchanged. -/
theorem processAISMessage_drops_unidentified_witness :
    processAISMessage rFix 3
      { MessageType := "PositionReport", Message := none,
        MetaData := some { MMSI := some 5 } } = rFix :=
  processAISMessage_drops_unidentified rFix 3 _ (Or.inl rfl)

/-- The `a || b || 0` chain is 0 exactly when both operands are absent
or 0. -/
theorem jsOrQ_chain_eq_zero (a b : Option ℚ) :
    jsOrQ a (jsOrQ b 0) = 0 ↔
      (a = none ∨ a = some 0) ∧ (b = none ∨ b = some 0) := by
  cases a with
  | none =>
    cases b with
    | none => simp [jsOrQ]
    | some y => by_cases hy : y = 0 <;> simp [jsOrQ, hy]
  | some x =>
    cases b with
    | none => by_cases hx : x = 0 <;> simp [jsOrQ, hx]
    | some y =>
      by_cases hx : x = 0 <;> by_cases hy : y = 0 <;> simp [jsOrQ, hx, hy]

/-- C10: in a position report a zero `TrueHeading` is treated as absent:
the stored heading falls back to a nonzero `Cog`, and heading 0 is
stored exactly when both `TrueHeading` and `Cog` are 0 or absent. -/
theorem heading_fallback_cog (r : Registry) (now : ℕ) (mmsi : ℕ)
    (pos : PositionReport) (h0 : mmsi ≠ 0) :
    ∃ v', (processAISMessage r now
        { MessageType := "PositionReport"
          Message := some { PositionReport := some pos, ShipStaticData := none }
          MetaData := some { MMSI := some mmsi } }).get mmsi = some v' ∧
      (∀ c : ℚ, pos.TrueHeading = some 0 → pos.Cog = some c → c ≠ 0 →
        v'.heading = some c) ∧
      (v'.heading = some 0 ↔
        (pos.TrueHeading = none ∨ pos.TrueHeading = some 0) ∧
        (pos.Cog = none ∨ pos.Cog = some 0)) := by
  refine ⟨applyPositionReport ((r.get mmsi).getD (vesselStub mmsi)) pos now,
    ?_, ?_, ?_⟩
  · have hr : processAISMessage r now
        ⟨"PositionReport",
          some ⟨some pos, none⟩, some ⟨some mmsi⟩⟩
          = r.set mmsi
              (applyPositionReport ((r.get mmsi).getD (vesselStub mmsi)) pos now) := by
      simp only [processAISMessage]
      rw [if_neg h0, if_true]
    rw [hr, Registry.get_set_self]
  · intro c hTH hCog hc
    show some (jsOrQ pos.TrueHeading (jsOrQ pos.Cog 0)) = some c
    rw [hTH, hCog]
    simp [jsOrQ, hc]
  · show some (jsOrQ pos.TrueHeading (jsOrQ pos.Cog 0)) = some 0 ↔ _
    rw [Option.some.injEq]
    exact jsOrQ_chain_eq_zero pos.TrueHeading pos.Cog

/-- C10 witness: with TrueHeading 0 and Cog 90 the stored heading is 90. -/
theorem heading_fallback_cog_witness :
    ∃ v', (processAISMessage [] 3 msgFixPos).get 5 = some v' ∧
      v'.heading = some 90 := by
  obtain ⟨v', hget, himp, _⟩ := heading_fallback_cog [] 3 5 posFix (by decide)
  exact ⟨v', hget, himp 90 rfl rfl (by norm_num)⟩

/-! ## Demo mode (`initDemoVessels`, `updateVesselPositions`) -/

/-- A geographic bounding box (the shape of `NY_BOUNDS`). -/
structure GeoBounds (α : Type) where
  name : String
  minLat : α
  minLon : α
  maxLat : α
  maxLon : α

/-- `NY_BOUNDS` from `server/index.js` (lines 21-27), over ℚ. -/
def NY_BOUNDS : GeoBounds ℚ :=
  { name := "New York", minLat := 40.45, minLon := -74.30,
    maxLat := 40.85, maxLon := -73.70 }

/-- The demo type-code catalog `SHIP_TYPES` (line 51). -/
def SHIP_TYPES : List ℤ :=
  [70, 71, 72, 73, 74, 75, 76, 77, 78, 79, 80, 81, 82, 83, 84, 85, 60, 61, 30, 50]

/-- The demo name catalog `VESSEL_NAMES` (lines 34-48). -/
def VESSEL_NAMES : List String :=
  ["Ever Given", "Maersk Edmonton", "MSC Oscar", "CMA CGM Marco Polo",
   "COSCO Shipping Universe", "ONE Commitment", "Evergreen Triton",
   "Yang Ming Wellness", "HMM Algeciras", "Pacific Pioneer",
   "Atlantic Guardian", "Ocean Voyager", "Sea Champion", "Global Carrier",
   "Maritime Express", "Horizon Leader", "Neptune Star", "Coastal Pride",
   "Harbor Master", "Port Authority", "Bay Runner", "Channel Navigator",
   "Strait Passage", "Gulf Stream", "Tidal Force", "Current Rider",
   "Wave Crest", "Storm Chaser", "Wind Dancer", "Sun Seeker",
   "Cargo King", "Freight Master", "Container Chief", "Bulk Carrier One",
   "Tanker Supreme", "Oil Transport", "Gas Carrier", "Chemical Hauler",
   "Auto Transporter", "RoRo Express", "Break Bulk Star", "Heavy Lift Pro",
   "Reefer King", "Produce Hauler", "Grain Shipper", "Coal Transport",
   "Iron Ore Giant", "Steel Carrier", "Timber Transport", "Pacific Trader"]

/-- The `mids` list of `randomMMSI` (line 62). -/
def MMSI_MIDS : List ℕ := [303, 338, 354, 370, 371, 372, 538, 636, 440, 477, 563, 412]

/-- One loop iteration's worth of `Math.random()` draws in
`initDemoVessels`; each field is a draw from [0, 1). -/
structure DemoDraw where
  posLat : ℚ
  posLon : ℚ
  midPick : ℚ
  restPick : ℚ
  typePick : ℚ
  speedPick : ℚ
  headingPick : ℚ
  imoPick : ℚ
  deriving DecidableEq, Repr

/-- `randomMMSI` (lines 61-66): a MID prefix chosen from `MMSI_MIDS`
followed by a six-digit zero-padded suffix, read back as a number. -/
def randomMMSI (midPick restPick : ℚ) : ℕ :=
  MMSI_MIDS.getD (⌊midPick * 12⌋).toNat 0 * 1000000
    + (⌊restPick * 1000000⌋).toNat

/-- The vessel record built by one iteration of `initDemoVessels`
(lines 128-153), emissions precomputed and spread in. -/
def demoVessel (i : ℕ) (d : DemoDraw) (now : ℕ) : Vessel :=
  let mmsi := randomMMSI d.midPick d.restPick
  let shipTypeCode := SHIP_TYPES.getD (⌊d.typePick * 20⌋).toNat 0
  let speed : ℚ := 5 + d.speedPick * 15
  let heading : ℚ := (⌊d.headingPick * 360⌋ : ℤ)
  { mmsi := mmsi
    port := "New York"
    name := some (jsOrStr (VESSEL_NAMES.get? i) ("Vessel " ++ toString mmsi))
    shipTypeCode := some shipTypeCode
    imo := some (9000000 + ⌊d.imoPick * 999999⌋)
    latitude := some (NY_BOUNDS.minLat + d.posLat * (NY_BOUNDS.maxLat - NY_BOUNDS.minLat))
    longitude := some (NY_BOUNDS.minLon + d.posLon * (NY_BOUNDS.maxLon - NY_BOUNDS.minLon))
    speed := some speed
    heading := some heading
    course := some heading
    lastUpdated := some now
    emissions := some (Server.calculateEmissions shipTypeCode speed) }

/-- `initDemoVessels` (lines 125-157): fifty `Map.set` calls, one per
loop iteration, on the given starting registry. -/
def initDemoVessels (draws : ℕ → DemoDraw) (now : ℕ) (vessels : Registry) :
    Registry :=
  (List.range 50).foldl
    (fun reg i =>
      reg.set (randomMMSI (draws i).midPick (draws i).restPick)
        (demoVessel i (draws i) now))
    vessels

theorem Registry.length_set_of_get_none (r : Registry) (k : ℕ) (v : Vessel)
    (h : r.get k = none) : (r.set k v).length = r.length + 1 := by
  induction r with
  | nil => simp [Registry.set]
  | cons p r ih =>
    simp only [Registry.get] at h
    by_cases hp : p.1 = k
    · simp [hp] at h
    · rw [if_neg hp] at h
      simp [Registry.set, hp, ih h]

theorem Registry.mem_set (r : Registry) (k : ℕ) (v : Vessel) (q : ℕ × Vessel)
    (h : q ∈ r.set k v) : q ∈ r ∨ q = (k, v) := by
  induction r with
  | nil => simpa [Registry.set] using h
  | cons p r ih =>
    simp only [Registry.set] at h
    by_cases hp : p.1 = k
    · rw [if_pos hp] at h
      rcases List.mem_cons.mp h with h | h
      · right; exact h
      · left; exact List.mem_cons_of_mem _ h
    · rw [if_neg hp] at h
      rcases List.mem_cons.mp h with h | h
      · left; exact h ▸ List.mem_cons_self _ _
      · rcases ih h with h | h
        · left; exact List.mem_cons_of_mem _ h
        · right; exact h

theorem size_foldl_set_distinct (f : ℕ → ℕ) (g : ℕ → Vessel) (l : List ℕ)
    (r : Registry) (hnew : ∀ i ∈ l, r.get (f i) = none)
    (hinj : l.Pairwise (fun i j => f i ≠ f j)) :
    (l.foldl (fun reg i => reg.set (f i) (g i)) r).length
      = r.length + l.length := by
  induction l generalizing r with
  | nil => simp
  | cons i l ih =>
    simp only [List.foldl_cons, List.length_cons]
    rw [ih (r.set (f i) (g i)) ?_ (List.Pairwise.of_cons hinj)]
    · rw [Registry.length_set_of_get_none r (f i) (g i)
        (hnew i (List.mem_cons_self i l))]
      omega
    · intro j hj
      rw [Registry.get_set_ne r (f i) (f j) (g i)
        (Ne.symm ((List.pairwise_cons.mp hinj).1 j hj))]
      exact hnew j (List.mem_cons_of_mem _ hj)

theorem forall_mem_foldl_set (P : ℕ × Vessel → Prop) (f : ℕ → ℕ)
    (g : ℕ → Vessel) (l : List ℕ) (r : Registry)
    (hr : ∀ p ∈ r, P p) (hg : ∀ i ∈ l, P (f i, g i)) :
    ∀ p ∈ l.foldl (fun reg i => reg.set (f i) (g i)) r, P p := by
  induction l generalizing r with
  | nil => simpa using hr
  | cons i l ih =>
    intro p hp
    refine ih (r.set (f i) (g i)) ?_
      (fun j hj => hg j (List.mem_cons_of_mem _ hj)) p hp
    intro q hq
    rcases Registry.mem_set r (f i) (g i) q hq with h | h
    · exact hr q h
    · exact h ▸ hg i (List.mem_cons_self i l)

theorem Registry.length_set_of_get_some (r : Registry) (k : ℕ) (v : Vessel)
    (h : r.get k ≠ none) : (r.set k v).length = r.length := by
  induction r with
  | nil => simp [Registry.get] at h
  | cons p r ih =>
    by_cases hp : p.1 = k
    · simp [Registry.set, hp]
    · simp only [Registry.get, if_neg hp] at h
      simp [Registry.set, hp, ih h]

theorem length_foldl_set_const (f : ℕ → ℕ) (g : ℕ → Vessel) (k : ℕ)
    (l : List ℕ) (r : Registry) (hk : ∀ i ∈ l, f i = k)
    (hr : r.get k ≠ none) :
    (l.foldl (fun reg i => reg.set (f i) (g i)) r).length = r.length := by
  induction l generalizing r with
  | nil => rfl
  | cons i l ih =>
    simp only [List.foldl_cons]
    have hik : f i = k := hk i (List.mem_cons_self i l)
    rw [ih (r.set (f i) (g i)) (fun j hj => hk j (List.mem_cons_of_mem _ hj)) ?_,
      Registry.length_set_of_get_some r (f i) (g i) (hik ▸ hr)]
    rw [hik, Registry.get_set_self]
    simp

/-- All fifty iterations hitting one key leave a one-record registry. -/
theorem length_foldl_set_const_from_nil (f : ℕ → ℕ) (g : ℕ → Vessel) (k : ℕ)
    (l : List ℕ) (hne : l ≠ []) (hk : ∀ i ∈ l, f i = k) :
    (l.foldl (fun (reg : Registry) i => reg.set (f i) (g i)) []).length = 1 := by
  cases l with
  | nil => exact absurd rfl hne
  | cons i l =>
    simp only [List.foldl_cons]
    have h2 := length_foldl_set_const f g k l [(f i, g i)]
      (fun j hj => hk j (List.mem_cons_of_mem _ hj))
      (by rw [hk i (List.mem_cons_self i l)]; simp [Registry.get])
    simpa using h2

/-- C9 counterexample: if every iteration draws the same random numbers
(all zero), every iteration produces the same MMSI, the fifty
`Map.set` calls all hit the same key, and the registry ends up with a
single record, not fifty. -/
theorem initDemoVessels_collision_counterexample :
    (initDemoVessels (fun _ => ⟨0, 0, 0, 0, 0, 0, 0, 0⟩) 0 []).size = 1 := by
  simp only [initDemoVessels, Registry.size]
  exact length_foldl_set_const_from_nil (fun _ => randomMMSI 0 0)
    (fun i => demoVessel i ⟨0, 0, 0, 0, 0, 0, 0, 0⟩ 0) (randomMMSI 0 0)
    (List.range 50) (by simp) (fun _ _ => rfl)

/-- C9 (amended): in every outcome of the draws each stored record has a
known (some) type code and precomputed emissions, and when the fifty
drawn MMSIs are additionally pairwise distinct the registry holds
exactly fifty records. -/
theorem initDemoVessels_distinct_mmsi (draws : ℕ → DemoDraw) (now : ℕ) :
    (∀ p ∈ initDemoVessels draws now [],
      (p.2.shipTypeCode).isSome ∧ (p.2.emissions).isSome) ∧
    ((List.range 50).Pairwise (fun i j =>
        randomMMSI (draws i).midPick (draws i).restPick
          ≠ randomMMSI (draws j).midPick (draws j).restPick) →
      (initDemoVessels draws now []).size = 50) := by
  constructor
  · exact forall_mem_foldl_set _ _ _ (List.range 50) []
      (fun p hp => absurd hp (List.not_mem_nil p))
      (fun i _ => ⟨rfl, rfl⟩)
  · intro hinj
    have h := size_foldl_set_distinct
      (fun i => randomMMSI (draws i).midPick (draws i).restPick)
      (fun i => demoVessel i (draws i) now) (List.range 50) []
      (fun _ _ => rfl) hinj
    simpa [initDemoVessels, Registry.size] using h

/-- With all other draws zero, a suffix draw of i/1000000 produces the
MMSI 303000000 + i. -/
theorem randomMMSI_suffix (i : ℕ) :
    randomMMSI 0 ((i : ℚ) / 1000000) = 303000000 + i := by
  have h1 : ((i : ℚ) / 1000000) * 1000000 = (i : ℚ) := by
    field_simp
  unfold randomMMSI
  rw [h1]
  have h2 : (⌊(0 : ℚ) * 12⌋).toNat = 0 := by norm_num
  have h3 : (⌊((i : ℕ) : ℚ)⌋).toNat = i := by
    rw [Int.floor_natCast]
    exact Int.toNat_natCast i
  rw [h2, h3]
  norm_num [MMSI_MIDS]

/-- C9 witness: draws whose MMSI suffixes are 0, 1, ..., 49 give fifty
distinct MMSIs, hence fifty registered vessels. -/
theorem initDemoVessels_distinct_mmsi_witness :
    (initDemoVessels (fun i => ⟨0, 0, 0, (i : ℚ) / 1000000, 0, 0, 0, 0⟩) 4 []).size
      = 50 := by
  have hstep : ∀ {a b : ℕ}, a ≠ b →
      randomMMSI 0 ((a : ℚ) / 1000000) ≠ randomMMSI 0 ((b : ℚ) / 1000000) := by
    intro a b hab
    rw [randomMMSI_suffix a, randomMMSI_suffix b]
    omega
  exact (initDemoVessels_distinct_mmsi
    (fun i => ⟨0, 0, 0, (i : ℚ) / 1000000, 0, 0, 0, 0⟩) 4).2
    ((List.nodup_range 50).imp hstep)

/-- `NY_BOUNDS` again, over ℝ, for the trigonometric movement model. -/
noncomputable def NY_BOUNDS_R : GeoBounds ℝ :=
  { name := "New York", minLat := 40.45, minLon := -74.30,
    maxLat := 40.85, maxLon := -73.70 }

/-- JavaScript `%` on numbers: remainder truncated toward zero. -/
noncomputable def jsMod (a b : ℝ) : ℝ :=
  a - b * ↑(if 0 ≤ a / b then ⌊a / b⌋ else ⌈a / b⌉)

/-- The kinematic fields of a vessel record that `updateVesselPositions`
reads and writes.  The tick also recomputes the emissions fields when it
varies the speed; those are not modelled here, no movement claim
mentions them. -/
structure DemoKinematics where
  latitude : ℝ
  longitude : ℝ
  speed : ℝ
  heading : ℝ
  course : ℝ

open scoped Classical in
/-- One tick of the demo movement for one vessel (`updateVesselPositions`,
lines 160-191), the tick's two `Math.random()` draws passed explicitly:
advance along the heading, reflect the heading and clamp the position at
a crossed bounding-box edge, occasionally perturb the speed, and copy
the heading into the course. -/
noncomputable def updateVesselPosition (v : DemoKinematics) (rVary rDelta : ℝ) :
    DemoKinematics :=
  let speedKmH := v.speed * 1.852
  let distanceKm := speedKmH / 3600 * 5
  let distanceDeg := distanceKm / 111
  let headingRad := v.heading * Real.pi / 180
  let lat1 := v.latitude + Real.cos headingRad * distanceDeg
  let lon1 := v.longitude + Real.sin headingRad * distanceDeg
  let heading1 := if lat1 < NY_BOUNDS_R.minLat ∨ NY_BOUNDS_R.maxLat < lat1
    then jsMod (180 - v.heading + 360) 360 else v.heading
  let lat2 := if lat1 < NY_BOUNDS_R.minLat ∨ NY_BOUNDS_R.maxLat < lat1
    then max NY_BOUNDS_R.minLat (min NY_BOUNDS_R.maxLat lat1) else lat1
  let heading2 := if lon1 < NY_BOUNDS_R.minLon ∨ NY_BOUNDS_R.maxLon < lon1
    then jsMod (360 - heading1) 360 else heading1
  let lon2 := if lon1 < NY_BOUNDS_R.minLon ∨ NY_BOUNDS_R.maxLon < lon1
    then max NY_BOUNDS_R.minLon (min NY_BOUNDS_R.maxLon lon1) else lon1
  let speed2 := if rVary < 0.1
    then max 3 (min 22 (v.speed + (rDelta - 0.5) * 2)) else v.speed
  { latitude := lat2, longitude := lon2, speed := speed2,
    heading := heading2, course := heading2 }

/-- `n` demo ticks, with the tick draws supplied as a stream. -/
noncomputable def iterateDemoTicks (draws : ℕ → ℝ × ℝ) (v : DemoKinematics) :
    ℕ → DemoKinematics
  | 0 => v
  | n + 1 => updateVesselPosition (iterateDemoTicks draws v n)
      (draws n).1 (draws n).2

/-- A single movement tick lands inside the bounding box whatever the
previous state and the random draws: the branch either clamps to the box
or was already inside it. -/
theorem updateVesselPosition_mem_bounds (v : DemoKinematics) (r1 r2 : ℝ) :
    (NY_BOUNDS_R.minLat ≤ (updateVesselPosition v r1 r2).latitude ∧
      (updateVesselPosition v r1 r2).latitude ≤ NY_BOUNDS_R.maxLat) ∧
    (NY_BOUNDS_R.minLon ≤ (updateVesselPosition v r1 r2).longitude ∧
      (updateVesselPosition v r1 r2).longitude ≤ NY_BOUNDS_R.maxLon) := by
  have hlatb : NY_BOUNDS_R.minLat ≤ NY_BOUNDS_R.maxLat := by
    norm_num [NY_BOUNDS_R]
  have hlonb : NY_BOUNDS_R.minLon ≤ NY_BOUNDS_R.maxLon := by
    norm_num [NY_BOUNDS_R]
  constructor
  · set lat1 := v.latitude + Real.cos (v.heading * Real.pi / 180)
      * (v.speed * 1.852 / 3600 * 5 / 111) with hlat1
    have hproj : (updateVesselPosition v r1 r2).latitude
        = if lat1 < NY_BOUNDS_R.minLat ∨ NY_BOUNDS_R.maxLat < lat1
          then max NY_BOUNDS_R.minLat (min NY_BOUNDS_R.maxLat lat1)
          else lat1 := rfl
    rw [hproj]
    split_ifs with h
    · exact ⟨le_max_left _ _,
        max_le hlatb (le_trans (min_le_left _ _) le_rfl)⟩
    · push_neg at h
      exact ⟨h.1, h.2⟩
  · set lon1 := v.longitude + Real.sin (v.heading * Real.pi / 180)
      * (v.speed * 1.852 / 3600 * 5 / 111) with hlon1
    have hproj : (updateVesselPosition v r1 r2).longitude
        = if lon1 < NY_BOUNDS_R.minLon ∨ NY_BOUNDS_R.maxLon < lon1
          then max NY_BOUNDS_R.minLon (min NY_BOUNDS_R.maxLon lon1)
          else lon1 := rfl
    rw [hproj]
    split_ifs with h
    · exact ⟨le_max_left _ _,
        max_le hlonb (le_trans (min_le_left _ _) le_rfl)⟩
    · push_neg at h
      exact ⟨h.1, h.2⟩

/-- C8: a vessel inside the bounding box stays inside it after any
number of demo movement ticks, for every outcome of the random draws;
the one-tick case is the single-application half of the claim. -/
theorem updateVesselPositions_stays_in_bounds (v : DemoKinematics)
    (draws : ℕ → ℝ × ℝ)
    (hlat : NY_BOUNDS_R.minLat ≤ v.latitude ∧
      v.latitude ≤ NY_BOUNDS_R.maxLat)
    (hlon : NY_BOUNDS_R.minLon ≤ v.longitude ∧
      v.longitude ≤ NY_BOUNDS_R.maxLon) (n : ℕ) :
    (NY_BOUNDS_R.minLat ≤ (iterateDemoTicks draws v n).latitude ∧
      (iterateDemoTicks draws v n).latitude ≤ NY_BOUNDS_R.maxLat) ∧
    (NY_BOUNDS_R.minLon ≤ (iterateDemoTicks draws v n).longitude ∧
      (iterateDemoTicks draws v n).longitude ≤ NY_BOUNDS_R.maxLon) := by
  induction n with
  | zero => exact ⟨hlat, hlon⟩
  | succ n ih =>
    exact updateVesselPosition_mem_bounds (iterateDemoTicks draws v n)
      (draws n).1 (draws n).2

/-- C8 witness: a vessel at (40.6, -74.0) is inside the box and stays
inside it after three ticks of draws (0.5, 0.5). -/
theorem updateVesselPositions_stays_in_bounds_witness :
    (NY_BOUNDS_R.minLat
        ≤ (iterateDemoTicks (fun _ => (0.5, 0.5))
            ⟨40.6, -74, 10, 90, 90⟩ 3).latitude ∧
      (iterateDemoTicks (fun _ => (0.5, 0.5))
          ⟨40.6, -74, 10, 90, 90⟩ 3).latitude ≤ NY_BOUNDS_R.maxLat) ∧
    (NY_BOUNDS_R.minLon
        ≤ (iterateDemoTicks (fun _ => (0.5, 0.5))
            ⟨40.6, -74, 10, 90, 90⟩ 3).longitude ∧
      (iterateDemoTicks (fun _ => (0.5, 0.5))
          ⟨40.6, -74, 10, 90, 90⟩ 3).longitude ≤ NY_BOUNDS_R.maxLon) :=
  updateVesselPositions_stays_in_bounds ⟨40.6, -74, 10, 90, 90⟩
    (fun _ => (0.5, 0.5)) (by norm_num [NY_BOUNDS_R]) (by norm_num [NY_BOUNDS_R]) 3
